import Mathlib

/-!
Verification of the session-bootstrap core of the Streamlit ETP application
(src/app.py).

Modelling conventions, used throughout:

* A Python string value that may be absent (a dict.get result) is an
  Option String; Python truthiness of such a value is the predicate
  truthy below (None and the empty string are falsy).
* Network and database answers are supplied through explicit oracle
  arguments (the verify oracle stands for the HTTP answer of the
  /auth/v1/user endpoint: none covers a non-200 status, a timeout and any
  raised exception, exactly the cases in which obter_user_supabase
  returns None).
* Every externally observable side effect is recorded, in program order,
  in a trace of Ev events.
* The machine state St packs st.session_state (the usuario, auth_user_id
  and access_token keys, plus a list of unrelated keys) together with the
  access_token values of the server-visible query parameters.
* st.rerun and st.stop abort the running script: a helper that can abort
  returns an Except whose error branch carries the state and trace at the
  abort point.
-/

/-- Python truthiness of an optional string: None and the empty string are
falsy, every other string is truthy. -/
def truthy : Option String → Bool
  | none => false
  | some s => !(s == "")

/-- Python `a or d` for an optional string `a` and a string default `d`:
the first truthy operand wins. -/
def pyOrS : Option String → String → String
  | some s, d => if s == "" then d else s
  | none, d => d

/-- Python `s.split(" ", 1)`: the part before the first space, and, when a
space exists, the remainder after it. -/
def splitOnce : List Char → List Char × Option (List Char)
  | [] => ([], none)
  | c :: t =>
    if c == ' ' then ([], some t)
    else
      let p := splitOnce t
      (c :: p.1, p.2)

/-- The JSON the Supabase /auth/v1/user endpoint returns, restricted to
the fields the application reads.  full_name and name stand for
user_metadata.full_name and user_metadata.name; when user_metadata is
absent the code substitutes an empty dict, so both fields are none, which
the flattening preserves (src/app.py lines 194-196). -/
structure UserJson where
  id : Option String
  email : Option String
  full_name : Option String
  name : Option String
deriving DecidableEq

/-- A record of the 'usuarios' table, with the columns the code writes
(src/app.py lines 167-183). -/
structure Row where
  nome : String
  sobrenome : String
  cpf : String
  email : Option String
deriving DecidableEq

/-- Observable side effects, recorded in program order. -/
inductive Ev where
  | verifyCall (tok : String)
  | sessionWrite
  | scrubQuery
  | renderLogin
  | renderMain
  | warnExpired
  | sessionClear
  | rerun
  | postgrestAuth (tok : String)
  | syncCall
  | dbSelect (tbl : String)
  | dbInsert (tbl : String)
  | dbUpdate (tbl : String)
  | dbDelete (tbl : String)
  | errorMsg
  | stopRun
deriving DecidableEq

/-- obter_usuario_por_email (src/app.py lines 149-164): guard on a falsy
email, otherwise select the first 'usuarios' row with that email. -/
def obter_usuario_por_email (table : List Row) (email : Option String) :
    Option Row × List Ev :=
  if truthy email then
    ((table.filter (fun r => r.email == email)).head?, [Ev.dbSelect ("usuarios")])
  else (none, [])

/-- criar_usuario (src/app.py lines 167-183): insert one 'usuarios' row
and return it. -/
def criar_usuario (table : List Row) (nomeA sobrenomeA cpfA : String)
    (emailA : Option String) : Row × List Row × List Ev :=
  let r : Row := ⟨nomeA, sobrenomeA, cpfA, emailA⟩
  (r, table ++ [r], [Ev.dbInsert ("usuarios")])

/-- nome_completo (src/app.py line 196): meta.get("full_name") or
meta.get("name") or "". -/
def nome_completo (j : UserJson) : String :=
  pyOrS j.full_name (pyOrS j.name (""))

/-- First component of nome_completo.split(" ", 1) (src/app.py lines
198-199). -/
def nomeOf (j : UserJson) : String :=
  String.mk (splitOnce (nome_completo j).toList).1

/-- Second component of nome_completo.split(" ", 1), empty when the name
has no space (src/app.py line 200). -/
def sobrenomeOf (j : UserJson) : String :=
  match (splitOnce (nome_completo j).toList).2 with
  | some l => String.mk l
  | none => ""

/-- sincronizar_usuario (src/app.py lines 186-203): given the auth user
JSON, look the email up in 'usuarios' (only when the email is truthy) and
return the existing row, else insert a fresh row with the probed name
parts, an empty cpf, and the (possibly absent) email. -/
def sincronizar_usuario (table : List Row) (uj : Option UserJson) :
    Option Row × List Row × List Ev :=
  match uj with
  | none => (none, table, [Ev.syncCall])
  | some j =>
    let lookup : Option Row × List Ev :=
      if truthy j.email then obter_usuario_por_email table j.email else (none, [])
    match lookup.1 with
    | some r => (some r, table, Ev.syncCall :: lookup.2)
    | none =>
      let cr := criar_usuario table (nomeOf j) (sobrenomeOf j) ("") j.email
      (some cr.1, cr.2.1, Ev.syncCall :: (lookup.2 ++ cr.2.2))

/-- The address as the browser-side relay script sees it: origin+pathname,
the query string (without the question mark) and the fragment (without the
hash sign). -/
structure Url where
  base : String
  query : String
  frag : String
deriving DecidableEq

/-- Boolean list-prefix test (spelled out to keep the development
self-contained). -/
def leadsWith : List Char → List Char → Bool
  | [], _ => true
  | _ :: _, [] => false
  | a :: as, b :: bs => a == b && leadsWith as bs

/-- Boolean substring test: JavaScript `s.indexOf(pat) >= 0`. -/
def containsSub (pat : List Char) : List Char → Bool
  | [] => pat.isEmpty
  | c :: t => leadsWith pat (c :: t) || containsSub pat t

/-- The well-known query key the relay looks for. -/
def tokenKey : List Char := String.toList ("access_token=")

/-- JavaScript window.location.hash: empty when there is no fragment,
otherwise the fragment prefixed with the hash sign. -/
def locationHash (u : Url) : String :=
  if u.frag == "" then "" else ("#" ++ u.frag)

/-- The relay's trigger condition (src/app.py lines 53-54):
`h && h.indexOf("access_token=") >= 0`. -/
def relayTriggers (u : Url) : Bool :=
  !(locationHash u == "") && containsSub tokenKey (locationHash u).toList

/-- One run of the fragment-relay script (src/app.py lines 47-67): when a
fragment-encoded credential is present, replace the address with
base + "?" + fragment (history.replaceState) and reload (the returned
Bool records whether a navigation was issued); otherwise do nothing. -/
def relay (u : Url) : Url × Bool :=
  if relayTriggers u then
    ({ base := u.base, query := (locationHash u).drop 1, frag := "" }, true)
  else (u, false)

/-- n chained runs of the relay script, each run seeing the address the
previous run produced, counting the navigations issued. -/
def relayRuns : Nat → Url → Url × Nat
  | 0, u => (u, 0)
  | Nat.succ n, u =>
    let p := relay u
    let q := relayRuns n p.1
    (q.1, (if p.2 then 1 else 0) + q.2)

/-- The per-browser-session machine state: the three authentication keys
of st.session_state, the unrelated session keys, and the access_token
values carried by the query parameters. -/
structure St where
  usuario : Option UserJson
  authUserId : Option String
  accessToken : Option String
  others : List (String × String)
  queryParams : List String
deriving DecidableEq

/-- The state after st.session_state.clear() followed by
st.experimental_set_query_params(): every session key gone and the query
reset. -/
def St.cleared : St := ⟨none, none, none, [], []⟩

/-- The trace _require_session emits on a missing token: the warning, the
full session clear, the query reset and the rerun (src/app.py lines
217-221). -/
def haltEvs : List Ev := [Ev.warnExpired, Ev.sessionClear, Ev.scrubQuery, Ev.rerun]

/-- _require_session (src/app.py lines 211-225): on a falsy access_token,
warn, clear the whole session store, reset the query parameters and
rerun (modelled as the error branch); otherwise apply the token to
postgrest and return it. -/
def require_session (s : St) : Except (St × List Ev) (St × List Ev × String) :=
  match s.accessToken with
  | none => Except.error (St.cleared, haltEvs)
  | some t =>
    if t == "" then Except.error (St.cleared, haltEvs)
    else Except.ok (s, [Ev.postgrestAuth t], t)

/-- obter_user_supabase (src/app.py lines 127-146): a falsy token short
circuits to None without a network call; otherwise one GET to
/auth/v1/user whose outcome the verify oracle supplies (none covers a
non-200 answer, a timeout and an exception). -/
def obter_user_supabase (verify : String → Option UserJson) (tok : String) :
    Option UserJson × List Ev :=
  if tok == "" then (none, [])
  else (verify tok, [Ev.verifyCall tok])

/-- The query-parameter bootstrap at the top of main (src/app.py lines
686-697): when no usuario key exists and the query carries access_token
values, verify the first one; on success write the three session keys and
clear the query parameters, in that order; on failure change nothing. -/
def bootStep (verify : String → Option UserJson) (s : St) : St × List Ev :=
  match s.usuario with
  | some _ => (s, [])
  | none =>
    match s.queryParams with
    | [] => (s, [])
    | tok :: _ =>
      let vr := obter_user_supabase verify tok
      match vr.1 with
      | some uj =>
        ({ usuario := some uj, authUserId := uj.id, accessToken := some tok,
           others := s.others, queryParams := [] },
         vr.2 ++ [Ev.sessionWrite, Ev.scrubQuery])
      | none => (s, vr.2)

/-- One controller execution: main (src/app.py lines 685-709) up to the
session guard.  After the bootstrap, a missing usuario key renders the
login view and returns; otherwise _require_session runs and the
authenticated dashboard body is abstracted as one renderMain event (the
dashboard issues no further verifier call). -/
def mainFlow (verify : String → Option UserJson) (s : St) : St × List Ev :=
  let b := bootStep verify s
  match b.1.usuario with
  | none => (b.1, b.2 ++ [Ev.renderLogin])
  | some _ =>
    match require_session b.1 with
    | Except.error e => (e.1, b.2 ++ e.2)
    | Except.ok pr => (pr.1, b.2 ++ pr.2.1 ++ [Ev.renderMain])

/-- n consecutive controller executions (reloads): session state and the
query parameters persist from one execution to the next; the traces are
concatenated. -/
def runN (verify : String → Option UserJson) : Nat → St → St × List Ev
  | 0, s => (s, [])
  | Nat.succ n, s =>
    let p := mainFlow verify s
    let q := runN verify n p.1
    (q.1, p.2 ++ q.2)

/-- The resolved startup configuration (os.getenv / st.secrets already
collapsed into one optional value per key, src/app.py lines 26-27). -/
structure Config where
  supabaseUrl : Option String
  supabaseKey : Option String
deriving DecidableEq

/-- The module-level run of the script (src/app.py lines 26-36 followed by
main): a falsy SUPABASE_URL or SUPABASE_KEY shows the error and stops
before anything else renders; otherwise the controller runs. -/
def runScript (cfg : Config) (verify : String → Option UserJson) (s : St) :
    St × List Ev :=
  if truthy cfg.supabaseUrl && truthy cfg.supabaseKey then mainFlow verify s
  else (s, [Ev.errorMsg, Ev.stopRun])

/-- Occurrences of the verifier call for one specific credential in a
trace. -/
def countVerify (c : String) : List Ev → Nat
  | [] => 0
  | Ev.verifyCall t :: rest => (if t = c then 1 else 0) + countVerify c rest
  | _ :: rest => countVerify c rest

/-- Identity-verifier network calls. -/
def isVerifyEv : Ev → Bool
  | Ev.verifyCall _ => true
  | _ => false

/-- Session-store writes (the bootstrap key writes and the guard's
clear). -/
def isStoreWriteEv : Ev → Bool
  | Ev.sessionWrite => true
  | Ev.sessionClear => true
  | _ => false

/-- Query-parameter scrubs. -/
def isScrubEv : Ev → Bool
  | Ev.scrubQuery => true
  | _ => false

/-- User-synchronizer invocations. -/
def isSyncEv : Ev → Bool
  | Ev.syncCall => true
  | _ => false

/-- Scans a trace and checks that every trigger event is preceded by some
prior event; the Bool argument records whether a prior event has been
seen already. -/
def precededScan (trigger prior : Ev → Bool) : Bool → List Ev → Bool
  | _, [] => true
  | seen, e :: t => (!(trigger e) || seen) && precededScan trigger prior (seen || prior e) t

/-- Whether a trace contains any database query. -/
def hasDb : List Ev → Bool
  | [] => false
  | Ev.dbSelect _ :: _ => true
  | Ev.dbInsert _ :: _ => true
  | Ev.dbUpdate _ :: _ => true
  | Ev.dbDelete _ :: _ => true
  | _ :: t => hasDb t

/-- A state from which the credential c can no longer be verified: a
usuario key already exists, or c is not the first access_token query
value, or c is falsy. -/
def DeadSt (c : String) (s : St) : Prop :=
  s.usuario ≠ none ∨ s.queryParams.head? ≠ some c ∨ c = ""

/-- A 'projetos' row with the columns the code touches. -/
structure ProjRow where
  pid : Nat
  pnome : String
  criadoEm : String
  userId : Option String
  orgao : Option String
  unidade : Option String
  processo : Option String
  responsavel : Option String
  objeto : Option String
deriving DecidableEq

/-- The five basic-information fields passed to atualizar_infos_basicas. -/
structure Infos where
  orgao : Option String
  unidade : Option String
  processo : Option String
  responsavel : Option String
  objeto : Option String
deriving DecidableEq

/-- An 'etapas' row as carregar_etapa selects it. -/
structure EtapaRow where
  texto_final : Option String
  sugestao_ia : Option String
  titulo : Option String
deriving DecidableEq

/-- The dict carregar_etapa returns. -/
structure EtapaInfo where
  texto_final : String
  sugestao_ia : String
  titulo : String
deriving DecidableEq

/-- An 'arquivos' row as listar_arquivos selects it. -/
structure ArqRow where
  aid : Nat
  nome_original : String
deriving DecidableEq

/-- An 'etapas' row as carregar_textos_todas_etapas selects it. -/
structure EtapaFull where
  numero : Nat
  titulo : String
  texto_final : String
deriving DecidableEq

/-- The ETAPAS constant (src/app.py lines 73-86). -/
def ETAPAS : List (Nat × String) :=
  [(1, "Ajuste da Descrição da Necessidade de Contratação"),
   (2, "Requisitos da Contratação"),
   (3, "Levantamento de Mercado"),
   (4, "Descrição da solução como um todo"),
   (5, "Estimativa das quantidades"),
   (6, "Estimativa do valor da contratação"),
   (7, "Alinhamento da contratação com PCA"),
   (8, "Justificativa para o parcelamento ou não da contratação"),
   (9, "Contratações correlatas e/ou interdependentes"),
   (10, "Gestão de riscos / riscos envolvidos"),
   (11, "Justificativa da escolha da solução"),
   (12, "Providências finais / conclusão")]

/-- dict(ETAPAS)[n].  Off-domain numbers yield the empty string here; the
Python dict lookup would raise instead, a corner no modelled call
reaches. -/
def etapaTitulo (n : Nat) : String :=
  match (ETAPAS.filter (fun p => p.1 == n)).head? with
  | some p => p.2
  | none => ""

/-- listar_projetos (src/app.py lines 228-243): guard, then return [] on a
falsy auth_user_id without querying, else select the user's projects (the
answer supplied by the rows oracle). -/
def listar_projetos (rows : List ProjRow) (s : St) :
    Except (St × List Ev) (St × List Ev × List ProjRow) :=
  match require_session s with
  | Except.error e => Except.error e
  | Except.ok (s1, evs, _) =>
    if truthy s1.authUserId then
      Except.ok (s1, evs ++ [Ev.dbSelect ("projetos")], rows)
    else
      Except.ok (s1, evs, [])

/-- criar_projeto (src/app.py lines 245-259): guard, st.error and st.stop
on a falsy auth_user_id, else insert the project and return the new id
(supplied by the newId oracle). -/
def criar_projeto (newId : Nat) (nomeArg : String) (s : St) :
    Except (St × List Ev) (St × List Ev × Nat) :=
  match require_session s with
  | Except.error e => Except.error e
  | Except.ok (s1, evs, _) =>
    if truthy s1.authUserId then
      Except.ok (s1, evs ++ [Ev.dbInsert ("projetos")], newId)
    else
      Except.error (s1, evs ++ [Ev.errorMsg, Ev.stopRun])

/-- obter_projeto (src/app.py lines 262-275): guard, then select the
single project row (the answer supplied by the rowAns oracle). -/
def obter_projeto (rowAns : Option ProjRow) (pid : Nat) (s : St) :
    Except (St × List Ev) (St × List Ev × Option ProjRow) :=
  match require_session s with
  | Except.error e => Except.error e
  | Except.ok (s1, evs, _) =>
    Except.ok (s1, evs ++ [Ev.dbSelect ("projetos")], rowAns)

/-- excluir_projeto (src/app.py lines 278-291): guard, then delete the
project filtered by id and user_id. -/
def excluir_projeto (pid : Nat) (s : St) :
    Except (St × List Ev) (St × List Ev × Unit) :=
  match require_session s with
  | Except.error e => Except.error e
  | Except.ok (s1, evs, _) =>
    Except.ok (s1, evs ++ [Ev.dbDelete ("projetos")], ())

/-- atualizar_infos_basicas (src/app.py lines 294-316): guard, then update
the five fields filtered by id and user_id. -/
def atualizar_infos_basicas (pid : Nat) (dados : Infos) (s : St) :
    Except (St × List Ev) (St × List Ev × Unit) :=
  match require_session s with
  | Except.error e => Except.error e
  | Except.ok (s1, evs, _) =>
    Except.ok (s1, evs ++ [Ev.dbUpdate ("projetos")], ())

/-- carregar_etapa (src/app.py lines 319-338): guard, select the stage
rows (answer supplied by the ans oracle), then build the dict with
empty-string defaults and the ETAPAS fallback title. -/
def carregar_etapa (ans : List EtapaRow) (pid numero : Nat) (s : St) :
    Except (St × List Ev) (St × List Ev × EtapaInfo) :=
  match require_session s with
  | Except.error e => Except.error e
  | Except.ok (s1, evs, _) =>
    match ans with
    | row :: _ =>
      Except.ok (s1, evs ++ [Ev.dbSelect ("etapas")],
        ⟨pyOrS row.texto_final (""), pyOrS row.sugestao_ia (""),
         pyOrS row.titulo (etapaTitulo numero)⟩)
    | [] =>
      Except.ok (s1, evs ++ [Ev.dbSelect ("etapas")], ⟨"", "", etapaTitulo numero⟩)

/-- salvar_etapa (src/app.py lines 341-376): guard, select the existing
stage (the existe oracle reports whether rows came back), then update or
insert. -/
def salvar_etapa (existe : Bool) (pid numero : Nat)
    (tituloArg textoArg sugArg : String) (s : St) :
    Except (St × List Ev) (St × List Ev × Unit) :=
  match require_session s with
  | Except.error e => Except.error e
  | Except.ok (s1, evs, _) =>
    if existe then
      Except.ok (s1, evs ++ [Ev.dbSelect ("etapas"), Ev.dbUpdate ("etapas")], ())
    else
      Except.ok (s1, evs ++ [Ev.dbSelect ("etapas"), Ev.dbInsert ("etapas")], ())

/-- salvar_arquivo (src/app.py lines 379-391): guard, then insert the file
metadata. -/
def salvar_arquivo (pid numero : Nat) (fileName : String) (s : St) :
    Except (St × List Ev) (St × List Ev × Unit) :=
  match require_session s with
  | Except.error e => Except.error e
  | Except.ok (s1, evs, _) =>
    Except.ok (s1, evs ++ [Ev.dbInsert ("arquivos")], ())

/-- listar_arquivos (src/app.py lines 394-406): guard, then select the
stage's files (answer supplied by the ans oracle). -/
def listar_arquivos (ans : List ArqRow) (pid numero : Nat) (s : St) :
    Except (St × List Ev) (St × List Ev × List ArqRow) :=
  match require_session s with
  | Except.error e => Except.error e
  | Except.ok (s1, evs, _) =>
    Except.ok (s1, evs ++ [Ev.dbSelect ("arquivos")], ans)

/-- carregar_textos_todas_etapas (src/app.py lines 409-421): guard, then
select all stage texts (answer supplied by the ans oracle). -/
def carregar_textos_todas_etapas (ans : List EtapaFull) (pid : Nat) (s : St) :
    Except (St × List Ev) (St × List Ev × List EtapaFull) :=
  match require_session s with
  | Except.error e => Except.error e
  | Except.ok (s1, evs, _) =>
    Except.ok (s1, evs ++ [Ev.dbSelect ("etapas")], ans)

/-- A concrete identity answer, used by the concrete scenarios below. -/
def uj0 : UserJson := ⟨some ("uid1"), some ("a@x.com"), some ("Ana Silva"), none⟩

/-- A verify oracle that accepts exactly the credential tok. -/
def vOk0 : String → Option UserJson := fun t => if t == "tok" then some uj0 else none

/-- A verify oracle on which every verification fails. -/
def vNone : String → Option UserJson := fun _ => none

/-- A fresh state whose address carries the credential tok. -/
def st0 : St := ⟨none, none, none, [], ["tok"]⟩

/-- A state with an authenticated user but no access token, and one
unrelated session key. -/
def stExp : St := ⟨some uj0, some ("uid1"), none, [("k", "v")], ["tok"]⟩

/-- An address with no fragment at all. -/
def relayUrl0 : Url := ⟨"https://app.example", "", ""⟩

/-- An address whose fragment carries a credential. -/
def relayUrl1 : Url := ⟨"https://app.example", "", "access_token=tok&ty=bearer"⟩

/-- A startup configuration missing the Supabase URL. -/
def cfg0 : Config := ⟨none, some ("key")⟩

/-- A 'usuarios' row for the concrete idempotence scenario. -/
def rowA : Row := ⟨"Ana", "Silva", "", some ("a@x.com")⟩

/-- A 'usuarios' row whose email column holds the empty string. -/
def rowE : Row := ⟨"x", "y", "z", some ("")⟩

/-- An identity whose email is the empty string. -/
def ujE : UserJson := ⟨none, some (""), none, none⟩

/-- An identity with every optional field absent. -/
def ujNoEmail : UserJson := ⟨none, none, none, none⟩

/-! Relay lemmas. -/

theorem relay_noTrig {u : Url} (h : relayTriggers u = false) : relay u = (u, false) := by
  simp [relay, h]

theorem relayTriggers_of_frag_empty {u : Url} (h : u.frag = "") :
    relayTriggers u = false := by
  simp [relayTriggers, locationHash, h]

theorem relay_frag_empty {u : Url} (h : relayTriggers u = true) :
    (relay u).1.frag = "" := by
  simp [relay, h]

theorem relayRuns_noTrig {u : Url} (h : relayTriggers u = false) :
    ∀ n, relayRuns n u = (u, 0) := by
  intro n
  induction n with
  | zero => rfl
  | succ m ih => simp [relayRuns, relay_noTrig h, ih]

/-- Claim C6 (confirmed).  The Fragment Relay is idempotent: over any
number of chained runs it issues at most one navigation (so once the
fragment credential is consumed it never re-triggers and no reload loop
arises), and when the address carries no fragment-encoded credential it
performs no navigation and no address rewrite at all. -/
theorem relay_noop_and_single_navigation (n : Nat) (u : Url) :
    (relayRuns n u).2 ≤ 1 ∧
    (relayTriggers u = false → relayRuns n u = (u, 0)) := by
  constructor
  · cases ht : relayTriggers u with
    | false => simp [relayRuns_noTrig ht n]
    | true =>
      cases n with
      | zero => simp [relayRuns]
      | succ m =>
        have hsnd : (relay u).2 = true := by simp [relay, ht]
        have hfrag : (relay u).1.frag = "" := relay_frag_empty ht
        have hrest := relayRuns_noTrig (relayTriggers_of_frag_empty hfrag) m
        simp [relayRuns, hsnd, hrest]
  · intro h
    exact relayRuns_noTrig h n

/-- Witness for C6 at a concrete credential-free address. -/
theorem relay_noop_and_single_navigation_witness :
    (relayRuns 3 relayUrl0).2 ≤ 1 ∧ relayRuns 3 relayUrl0 = (relayUrl0, 0) :=
  ⟨(relay_noop_and_single_navigation 3 relayUrl0).1,
   (relay_noop_and_single_navigation 3 relayUrl0).2 (by decide)⟩

/-! Synchronizer theorems. -/

/-- Claim C7 (counterexample).  With every optional field of the verifier
response missing, sincronizar_usuario does not fail closed: it returns a
freshly created user row whose name parts are empty and whose email is
null, and inserts that row.  The code has no strict parse step and no
VerificationError at all. -/
theorem missing_fields_create_user_counterexample :
    (sincronizar_usuario [] (some ujNoEmail)).1 = some (Row.mk ("") ("") ("") none) ∧
    (sincronizar_usuario [] (some ujNoEmail)).2.1 = [Row.mk ("") ("") ("") none] := by
  decide

/-- Claim C7 (amended).  Parsing never fails closed: for every table state
and every present verifier JSON the synchronizer produces a user record,
and when the email is falsy it skips the lookup and inserts a row built
from the probed aliased name fields (full_name, then name, then the empty
string) with an empty cpf and the unvalidated email. -/
theorem sincronizar_accepts_missing_fields (table : List Row) (j : UserJson) :
    ((sincronizar_usuario table (some j)).1).isSome = true ∧
    (truthy j.email = false →
      (sincronizar_usuario table (some j)).2.1 =
        table ++ [Row.mk (nomeOf j) (sobrenomeOf j) ("") j.email]) := by
  cases he : truthy j.email with
  | false =>
    constructor
    · simp [sincronizar_usuario, he, criar_usuario]
    · intro _
      simp [sincronizar_usuario, he, criar_usuario]
  | true =>
    constructor
    · cases hl : (obter_usuario_por_email table j.email).1 with
      | some r => simp [sincronizar_usuario, he, hl]
      | none => simp [sincronizar_usuario, he, hl, criar_usuario]
    · intro hfalse
      exact absurd hfalse (by decide)

/-- Witness for C7, discharging the falsy-email hypothesis at the
all-missing identity. -/
theorem sincronizar_accepts_missing_fields_witness :
    ((sincronizar_usuario [] (some ujNoEmail)).1).isSome = true ∧
    (sincronizar_usuario [] (some ujNoEmail)).2.1 =
      [] ++ [Row.mk (nomeOf ujNoEmail) (sobrenomeOf ujNoEmail) ("") ujNoEmail.email] :=
  ⟨(sincronizar_accepts_missing_fields [] ujNoEmail).1,
   (sincronizar_accepts_missing_fields [] ujNoEmail).2 (by decide)⟩

/-- Claim C8 (counterexample).  An identity whose email is the empty
string, applied to a table that already holds a row with that very email,
gets a second row inserted: the truthiness guard skips the lookup, so the
lookup-or-create is not idempotent for that email. -/
theorem empty_email_duplicate_counterexample :
    ¬ ((sincronizar_usuario [rowE] (some ujE)).2.1.countP
        (fun r => r.email == some ("")) ≤ 1) := by
  decide

/-- Claim C8 (amended).  For any identity whose non-empty email already
has a row in 'usuarios', sincronizar_usuario leaves the table unchanged,
returns the first existing row for that email, and a repeated call
returns the same answer — no duplicate record is ever inserted for a
non-empty email that already exists. -/
theorem sincronizar_idempotent_for_nonempty_email (table : List Row)
    (j : UserJson) (e : String) (hje : j.email = some e) (hne : ¬ e = "")
    (hex : (table.filter (fun r => r.email == some e)).head? ≠ none) :
    (sincronizar_usuario table (some j)).2.1 = table ∧
    (sincronizar_usuario table (some j)).1 =
      (table.filter (fun r => r.email == some e)).head? ∧
    sincronizar_usuario ((sincronizar_usuario table (some j)).2.1) (some j) =
      sincronizar_usuario table (some j) := by
  have ht : truthy j.email = true := by simp [truthy, hje, hne]
  obtain ⟨r, hr⟩ : ∃ r, (table.filter (fun x => x.email == some e)).head? = some r := by
    cases hh : (table.filter (fun x => x.email == some e)).head? with
    | none => exact absurd hh hex
    | some r => exact ⟨r, rfl⟩
  have hte : truthy (some e) = true := by simp [truthy, hne]
  have hob : (obter_usuario_por_email table j.email).1 = some r := by
    simp [obter_usuario_por_email, hje, hte, hr]
  have h1 : (sincronizar_usuario table (some j)).2.1 = table := by
    simp [sincronizar_usuario, ht, hob]
  refine ⟨h1, ?_, ?_⟩
  · rw [hr]
    simp [sincronizar_usuario, ht, hob]
  · rw [h1]

/-- Witness for C8 at a concrete one-row table. -/
theorem sincronizar_idempotent_for_nonempty_email_witness :
    (sincronizar_usuario [rowA] (some uj0)).2.1 = [rowA] ∧
    (sincronizar_usuario [rowA] (some uj0)).1 =
      ([rowA].filter (fun r => r.email == some ("a@x.com"))).head? ∧
    sincronizar_usuario ((sincronizar_usuario [rowA] (some uj0)).2.1) (some uj0) =
      sincronizar_usuario [rowA] (some uj0) :=
  sincronizar_idempotent_for_nonempty_email [rowA] uj0 ("a@x.com")
    (by decide) (by decide) (by decide)

/-! Case lemmas for one controller execution. -/

theorem mainFlow_nocred {verify : String → Option UserJson} {s : St}
    (hu : s.usuario = none) (hq : s.queryParams = []) :
    mainFlow verify s = (s, [Ev.renderLogin]) := by
  have hb : bootStep verify s = (s, []) := by simp [bootStep, hu, hq]
  simp [mainFlow, hb, hu]

theorem mainFlow_emptyTok {verify : String → Option UserJson} {s : St}
    {r : List String} (hu : s.usuario = none) (hq : s.queryParams = "" :: r) :
    mainFlow verify s = (s, [Ev.renderLogin]) := by
  have hb : bootStep verify s = (s, []) := by
    simp [bootStep, hu, hq, obter_user_supabase]
  simp [mainFlow, hb, hu]

theorem mainFlow_fail {verify : String → Option UserJson} {s : St}
    {c : String} {r : List String} (hu : s.usuario = none)
    (hq : s.queryParams = c :: r) (hc : ¬ c = "") (hv : verify c = none) :
    mainFlow verify s = (s, [Ev.verifyCall c, Ev.renderLogin]) := by
  have hb : bootStep verify s = (s, [Ev.verifyCall c]) := by
    simp [bootStep, hu, hq, obter_user_supabase, hc, hv]
  simp [mainFlow, hb, hu]

theorem mainFlow_ok {verify : String → Option UserJson} {s : St}
    {c : String} {r : List String} {uj : UserJson} (hu : s.usuario = none)
    (hq : s.queryParams = c :: r) (hc : ¬ c = "") (hv : verify c = some uj) :
    mainFlow verify s =
      ({ usuario := some uj, authUserId := uj.id, accessToken := some c,
         others := s.others, queryParams := [] },
       [Ev.verifyCall c, Ev.sessionWrite, Ev.scrubQuery,
        Ev.postgrestAuth c, Ev.renderMain]) := by
  have hb : bootStep verify s =
      ({ usuario := some uj, authUserId := uj.id, accessToken := some c,
         others := s.others, queryParams := [] },
       [Ev.verifyCall c, Ev.sessionWrite, Ev.scrubQuery]) := by
    simp [bootStep, hu, hq, obter_user_supabase, hc, hv]
  simp [mainFlow, hb, require_session, hc]

theorem mainFlow_logged_ok {verify : String → Option UserJson} {s : St}
    {u : UserJson} {t : String} (hu : s.usuario = some u)
    (ht : s.accessToken = some t) (htne : ¬ t = "") :
    mainFlow verify s = (s, [Ev.postgrestAuth t, Ev.renderMain]) := by
  have hb : bootStep verify s = (s, []) := by simp [bootStep, hu]
  simp [mainFlow, hb, hu, require_session, ht, htne]

theorem mainFlow_logged_expired {verify : String → Option UserJson} {s : St}
    {u : UserJson} (hu : s.usuario = some u)
    (ht : truthy s.accessToken = false) :
    mainFlow verify s = (St.cleared, haltEvs) := by
  have hb : bootStep verify s = (s, []) := by simp [bootStep, hu]
  cases hat : s.accessToken with
  | none => simp [mainFlow, hb, hu, require_session, hat]
  | some t =>
    have hte : t = "" := by
      rw [hat] at ht
      simpa [truthy] using ht
    simp [mainFlow, hb, hu, require_session, hat, hte]

/-! Counting verifier calls across executions. -/

theorem countVerify_append (c : String) (l1 l2 : List Ev) :
    countVerify c (l1 ++ l2) = countVerify c l1 + countVerify c l2 := by
  induction l1 with
  | nil => simp [countVerify]
  | cons e t ih =>
    cases e <;> simp [countVerify, ih] <;> omega

theorem dead_step (verify : String → Option UserJson) (c : String) (s : St)
    (h : DeadSt c s) :
    countVerify c (mainFlow verify s).2 = 0 ∧ DeadSt c (mainFlow verify s).1 := by
  cases husu : s.usuario with
  | some u =>
    cases hat : s.accessToken with
    | none =>
      rw [mainFlow_logged_expired husu (by simp [truthy, hat])]
      refine ⟨by simp [countVerify, haltEvs], Or.inr (Or.inl ?_)⟩
      simp [St.cleared]
    | some t =>
      by_cases hte : t = ""
      · rw [mainFlow_logged_expired husu (by simp [truthy, hat, hte])]
        refine ⟨by simp [countVerify, haltEvs], Or.inr (Or.inl ?_)⟩
        simp [St.cleared]
      · rw [mainFlow_logged_ok husu hat hte]
        exact ⟨by simp [countVerify], Or.inl (by simp [husu])⟩
  | none =>
    have hrest : s.queryParams.head? ≠ some c ∨ c = "" := by
      rcases h with h1 | h2 | h3
      · exact absurd husu h1
      · exact Or.inl h2
      · exact Or.inr h3
    cases hqp : s.queryParams with
    | nil =>
      rw [mainFlow_nocred husu hqp]
      refine ⟨by simp [countVerify], ?_⟩
      rcases h with h1 | h2 | h3
      · exact Or.inl h1
      · exact Or.inr (Or.inl h2)
      · exact Or.inr (Or.inr h3)
    | cons c0 r =>
      by_cases hc0 : c0 = ""
      · rw [mainFlow_emptyTok husu (by rw [hqp, hc0])]
        refine ⟨by simp [countVerify], ?_⟩
        rcases h with h1 | h2 | h3
        · exact Or.inl h1
        · exact Or.inr (Or.inl h2)
        · exact Or.inr (Or.inr h3)
      · have hne : ¬ c0 = c := by
          rcases hrest with h2 | h3
          · intro he
            apply h2
            rw [hqp, he]
            rfl
          · intro he
            exact hc0 (he.trans h3)
        cases hv : verify c0 with
        | none =>
          rw [mainFlow_fail husu hqp hc0 hv]
          refine ⟨by simp [countVerify, hne], ?_⟩
          rcases h with h1 | h2 | h3
          · exact Or.inl h1
          · exact Or.inr (Or.inl h2)
          · exact Or.inr (Or.inr h3)
        | some uj =>
          rw [mainFlow_ok husu hqp hc0 hv]
          exact ⟨by simp [countVerify, hne], Or.inl (by simp)⟩

theorem live_step (verify : String → Option UserJson) (c : String) (s : St)
    (uj : UserJson) (husu : s.usuario = none)
    (hq : s.queryParams.head? = some c) (hc : ¬ c = "")
    (hv : verify c = some uj) :
    countVerify c (mainFlow verify s).2 = 1 ∧ DeadSt c (mainFlow verify s).1 := by
  cases hqp : s.queryParams with
  | nil =>
    rw [hqp] at hq
    simp at hq
  | cons c0 r =>
    have hc0 : c0 = c := by
      rw [hqp] at hq
      simpa using hq
    subst hc0
    rw [mainFlow_ok husu hqp hc hv]
    exact ⟨by simp [countVerify], Or.inl (by simp)⟩

theorem dead_run (verify : String → Option UserJson) (c : String) :
    ∀ n s, DeadSt c s → countVerify c (runN verify n s).2 = 0
  | 0, s, _ => by simp [runN, countVerify]
  | Nat.succ n, s, h => by
    have hd := dead_step verify c s h
    have ih := dead_run verify c n (mainFlow verify s).1 hd.2
    simp [runN, countVerify_append, hd.1, ih]

/-! Bootstrap claims. -/

/-- Claim C1 (counterexample).  With a verifier that rejects the
credential, two consecutive executions that both observe tok in the query
parameters invoke the Identity Verifier twice: the failing execution
neither records an attempt marker nor scrubs the address, so the claim's
at-most-once bound fails. -/
theorem failed_credential_reverified_counterexample :
    ¬ countVerify ("tok") (runN vNone 2 st0).2 ≤ 1 := by
  decide

/-- Claim C1 (amended).  For every credential the Identity Verifier
accepts, the verifier is invoked at most once for that credential across
any number of controller executions: the success path writes the usuario
key and scrubs the query, and no later execution can reach the call
again.  (A credential the verifier rejects is re-verified on every
execution that still observes it, as the counterexample shows.) -/
theorem verify_once_per_accepted_credential (verify : String → Option UserJson)
    (c : String) (uj : UserJson) (hv : verify c = some uj) (n : Nat) (s : St) :
    countVerify c (runN verify n s).2 ≤ 1 := by
  by_cases hd : DeadSt c s
  · simp [dead_run verify c n s hd]
  · have husu : s.usuario = none := by
      by_contra hne
      exact hd (Or.inl hne)
    have hq : s.queryParams.head? = some c := by
      by_contra hne
      exact hd (Or.inr (Or.inl hne))
    have hc : ¬ c = "" := by
      intro he
      exact hd (Or.inr (Or.inr he))
    cases n with
    | zero => simp [runN, countVerify]
    | succ m =>
      have hl := live_step verify c s uj husu hq hc hv
      have hrest := dead_run verify c m (mainFlow verify s).1 hl.2
      simp [runN, countVerify_append, hl.1, hrest]

/-- Witness for C1 at the accepting oracle and the fresh state. -/
theorem verify_once_per_accepted_credential_witness :
    countVerify ("tok") (runN vOk0 3 st0).2 ≤ 1 :=
  verify_once_per_accepted_credential vOk0 ("tok") uj0 (by decide) 3 st0

/-- Claim C2 (counterexample).  A concrete execution in which the
Identity Verifier succeeds (the session keys are written) contains no
User Synchronizer invocation and no insert into 'usuarios': main stores
the verifier JSON directly and never calls sincronizar_usuario. -/
theorem verifier_success_no_sync_call_counterexample :
    Ev.sessionWrite ∈ (mainFlow vOk0 st0).2 ∧
    Ev.syncCall ∉ (mainFlow vOk0 st0).2 ∧
    Ev.dbInsert ("usuarios") ∉ (mainFlow vOk0 st0).2 := by
  decide

/-- Claim C2 (amended).  On every execution in which the Identity
Verifier succeeds, the controller writes the returned identity, its id
and the token directly to the session store and clears the query
parameters; it does not invoke the User Synchronizer and creates no local
user record during bootstrap. -/
theorem bootstrap_success_without_synchronizer
    (verify : String → Option UserJson) (s : St) (c : String) (uj : UserJson)
    (hu : s.usuario = none) (hq : s.queryParams.head? = some c)
    (hc : ¬ c = "") (hv : verify c = some uj) :
    (mainFlow verify s).2 =
      [Ev.verifyCall c, Ev.sessionWrite, Ev.scrubQuery,
       Ev.postgrestAuth c, Ev.renderMain] ∧
    (mainFlow verify s).1.usuario = some uj ∧
    Ev.syncCall ∉ (mainFlow verify s).2 ∧
    Ev.dbInsert ("usuarios") ∉ (mainFlow verify s).2 := by
  cases hqp : s.queryParams with
  | nil =>
    rw [hqp] at hq
    simp at hq
  | cons c0 r =>
    have hc0 : c0 = c := by
      rw [hqp] at hq
      simpa using hq
    subst hc0
    rw [mainFlow_ok hu hqp hc hv]
    refine ⟨rfl, rfl, by simp, by simp⟩

/-- Witness for C2 at the accepting oracle and the fresh state. -/
theorem bootstrap_success_without_synchronizer_witness :
    (mainFlow vOk0 st0).2 =
      [Ev.verifyCall ("tok"), Ev.sessionWrite, Ev.scrubQuery,
       Ev.postgrestAuth ("tok"), Ev.renderMain] ∧
    (mainFlow vOk0 st0).1.usuario = some uj0 ∧
    Ev.syncCall ∉ (mainFlow vOk0 st0).2 ∧
    Ev.dbInsert ("usuarios") ∉ (mainFlow vOk0 st0).2 :=
  bootstrap_success_without_synchronizer vOk0 st0 ("tok") uj0
    (by decide) (by decide) (by decide) (by decide)

/-- Claim C3 (counterexample).  On the concrete successful bootstrap
trace, the set-before-call discipline fails: no session-store write
precedes the Identity Verifier call (the call is the very first
observable event). -/
theorem no_marker_before_verify_counterexample :
    precededScan isVerifyEv isStoreWriteEv false (mainFlow vOk0 st0).2 = false := by
  decide

/-- Claim C3 (amended).  No Bootstrap Attempt Marker exists: on every
execution that reaches the verifier, the verifier network call is the
first observable event of the execution, so nothing — in particular no
session-store write — precedes it, and a second execution started from
the same observed state would issue the call again rather than skip it. -/
theorem verify_call_has_no_prior_store_write
    (verify : String → Option UserJson) (s : St) (c : String)
    (hu : s.usuario = none) (hq : s.queryParams.head? = some c)
    (hc : ¬ c = "") :
    ((mainFlow verify s).2).head? = some (Ev.verifyCall c) := by
  cases hqp : s.queryParams with
  | nil =>
    rw [hqp] at hq
    simp at hq
  | cons c0 r =>
    have hc0 : c0 = c := by
      rw [hqp] at hq
      simpa using hq
    subst hc0
    cases hv : verify c0 with
    | none =>
      rw [mainFlow_fail hu hqp hc hv]
      rfl
    | some uj =>
      rw [mainFlow_ok hu hqp hc hv]
      rfl

/-- Witness for C3 at the fresh state and the rejecting oracle. -/
theorem verify_call_has_no_prior_store_write_witness :
    ((mainFlow vNone st0).2).head? = some (Ev.verifyCall ("tok")) :=
  verify_call_has_no_prior_store_write vNone st0 ("tok")
    (by decide) (by decide) (by decide)

/-- Claim C4 (counterexample).  After a failing verification the
credential is not discarded from the server-visible address state: the
query parameters still hold it. -/
theorem credential_not_discarded_counterexample :
    ¬ (mainFlow vNone st0).1.queryParams = [] := by
  decide

/-- Claim C4 (amended).  If the Identity Verifier fails for a credential,
afterwards no session keys exist (the state is exactly the pre-execution
state) and the login view renders; but the credential remains in the
server-visible address state — the query parameters are not cleared on
failure — and no marker exists to clean up. -/
theorem verify_failure_leaves_credential_in_query
    (verify : String → Option UserJson) (s : St) (c : String)
    (hu : s.usuario = none) (hq : s.queryParams.head? = some c)
    (hc : ¬ c = "") (hv : verify c = none) :
    mainFlow verify s = (s, [Ev.verifyCall c, Ev.renderLogin]) ∧
    (mainFlow verify s).1.usuario = none ∧
    (mainFlow verify s).1.queryParams.head? = some c := by
  cases hqp : s.queryParams with
  | nil =>
    rw [hqp] at hq
    simp at hq
  | cons c0 r =>
    have hc0 : c0 = c := by
      rw [hqp] at hq
      simpa using hq
    subst hc0
    rw [mainFlow_fail hu hqp hc hv]
    exact ⟨rfl, hu, hq⟩

/-- Witness for C4 at the fresh state and the rejecting oracle. -/
theorem verify_failure_leaves_credential_in_query_witness :
    mainFlow vNone st0 = (st0, [Ev.verifyCall ("tok"), Ev.renderLogin]) ∧
    (mainFlow vNone st0).1.usuario = none ∧
    (mainFlow vNone st0).1.queryParams.head? = some ("tok") :=
  verify_failure_leaves_credential_in_query vNone st0 ("tok")
    (by decide) (by decide) (by decide) (by decide)

/-- Claim C5 (counterexample).  On the concrete successful bootstrap
trace the address scrub is not preceded by any synchronizer success: the
synchronizer never runs, so the required scrub-after-sync ordering fails
(and there is no marker-clear step at all). -/
theorem scrub_without_sync_success_counterexample :
    precededScan isScrubEv isSyncEv false (mainFlow vOk0 st0).2 = false := by
  decide

/-- Claim C5 (amended).  On a successful bootstrap the session keys are
written first (trace position 1, right after the verifier call) and the
credential is removed from the address state second (trace position 2) —
in that order; but no synchronizer invocation occurs anywhere in the
trace, so the scrub follows verifier success rather than synchronizer
success, and there is no separate marker to clear. -/
theorem session_write_before_scrub_without_sync
    (verify : String → Option UserJson) (s : St) (c : String) (uj : UserJson)
    (hu : s.usuario = none) (hq : s.queryParams.head? = some c)
    (hc : ¬ c = "") (hv : verify c = some uj) :
    ((mainFlow verify s).2).get? 1 = some Ev.sessionWrite ∧
    ((mainFlow verify s).2).get? 2 = some Ev.scrubQuery ∧
    Ev.syncCall ∉ (mainFlow verify s).2 := by
  cases hqp : s.queryParams with
  | nil =>
    rw [hqp] at hq
    simp at hq
  | cons c0 r =>
    have hc0 : c0 = c := by
      rw [hqp] at hq
      simpa using hq
    subst hc0
    rw [mainFlow_ok hu hqp hc hv]
    exact ⟨rfl, rfl, by simp⟩

/-- Witness for C5 at the accepting oracle and the fresh state. -/
theorem session_write_before_scrub_without_sync_witness :
    ((mainFlow vOk0 st0).2).get? 1 = some Ev.sessionWrite ∧
    ((mainFlow vOk0 st0).2).get? 2 = some Ev.scrubQuery ∧
    Ev.syncCall ∉ (mainFlow vOk0 st0).2 :=
  session_write_before_scrub_without_sync vOk0 st0 ("tok") uj0
    (by decide) (by decide) (by decide) (by decide)

/-! Startup configuration claim. -/

/-- Claim C9 (confirmed).  When SUPABASE_URL or SUPABASE_KEY resolves to a
falsy value at startup, the script shows the configuration error and
stops: neither the login view nor the authenticated view is ever rendered,
a fatal class distinct from the per-credential failure paths (which all
end in a renderLogin). -/
theorem missing_config_halts_before_views (cfg : Config)
    (verify : String → Option UserJson) (s : St)
    (h : (truthy cfg.supabaseUrl && truthy cfg.supabaseKey) = false) :
    runScript cfg verify s = (s, [Ev.errorMsg, Ev.stopRun]) ∧
    Ev.renderLogin ∉ (runScript cfg verify s).2 ∧
    Ev.renderMain ∉ (runScript cfg verify s).2 := by
  have h1 : runScript cfg verify s = (s, [Ev.errorMsg, Ev.stopRun]) := by
    simp [runScript, h]
  refine ⟨h1, ?_, ?_⟩ <;> simp [h1]

/-- Witness for C9 at a configuration missing the URL. -/
theorem missing_config_halts_before_views_witness :
    runScript cfg0 vNone st0 = (st0, [Ev.errorMsg, Ev.stopRun]) ∧
    Ev.renderLogin ∉ (runScript cfg0 vNone st0).2 ∧
    Ev.renderMain ∉ (runScript cfg0 vNone st0).2 :=
  missing_config_halts_before_views cfg0 vNone st0 (by decide)

/-! Session-guard claim. -/

theorem require_session_fail {s : St} (h : truthy s.accessToken = false) :
    require_session s = Except.error (St.cleared, haltEvs) := by
  cases hat : s.accessToken with
  | none => simp [require_session, hat]
  | some t =>
    have hte : t = "" := by
      rw [hat] at h
      simpa [truthy] using h
    simp [require_session, hat, hte]

/-- Claim C10 (confirmed).  Every data-access helper guarded by
_require_session, when run with a falsy access_token in the session
store, aborts with the rerun before issuing any database query: the whole
session store is cleared (the unrelated keys included), the query
parameters are reset, and the abort trace contains the rerun and no
database event. -/
theorem guarded_helpers_clear_and_rerun_without_queries (s : St)
    (h : truthy s.accessToken = false)
    (rows : List ProjRow) (newId : Nat) (nomeArg : String)
    (rowAns : Option ProjRow) (pid numero : Nat) (dados : Infos)
    (etapaAns : List EtapaRow) (existe : Bool)
    (tituloArg textoArg sugArg fileName : String)
    (arqAns : List ArqRow) (allAns : List EtapaFull) :
    listar_projetos rows s = Except.error (St.cleared, haltEvs) ∧
    criar_projeto newId nomeArg s = Except.error (St.cleared, haltEvs) ∧
    obter_projeto rowAns pid s = Except.error (St.cleared, haltEvs) ∧
    excluir_projeto pid s = Except.error (St.cleared, haltEvs) ∧
    atualizar_infos_basicas pid dados s = Except.error (St.cleared, haltEvs) ∧
    carregar_etapa etapaAns pid numero s = Except.error (St.cleared, haltEvs) ∧
    salvar_etapa existe pid numero tituloArg textoArg sugArg s =
      Except.error (St.cleared, haltEvs) ∧
    salvar_arquivo pid numero fileName s = Except.error (St.cleared, haltEvs) ∧
    listar_arquivos arqAns pid numero s = Except.error (St.cleared, haltEvs) ∧
    carregar_textos_todas_etapas allAns pid s =
      Except.error (St.cleared, haltEvs) ∧
    hasDb haltEvs = false ∧ Ev.rerun ∈ haltEvs ∧
    St.cleared.others = [] ∧ St.cleared.queryParams = [] := by
  have hr := require_session_fail h
  refine ⟨?_, ?_, ?_, ?_, ?_, ?_, ?_, ?_, ?_, ?_, by decide, by decide,
    rfl, rfl⟩
  · simp [listar_projetos, hr]
  · simp [criar_projeto, hr]
  · simp [obter_projeto, hr]
  · simp [excluir_projeto, hr]
  · simp [atualizar_infos_basicas, hr]
  · simp [carregar_etapa, hr]
  · simp [salvar_etapa, hr]
  · simp [salvar_arquivo, hr]
  · simp [listar_arquivos, hr]
  · simp [carregar_textos_todas_etapas, hr]

/-- Witness for C10 at a state with an authenticated user, an unrelated
session key and a stale query, but no access token. -/
theorem guarded_helpers_clear_and_rerun_without_queries_witness :
    listar_projetos [] stExp = Except.error (St.cleared, haltEvs) ∧
    criar_projeto 7 ("P") stExp = Except.error (St.cleared, haltEvs) ∧
    obter_projeto none 1 stExp = Except.error (St.cleared, haltEvs) ∧
    excluir_projeto 1 stExp = Except.error (St.cleared, haltEvs) ∧
    atualizar_infos_basicas 1 (Infos.mk none none none none none) stExp =
      Except.error (St.cleared, haltEvs) ∧
    carregar_etapa [] 1 2 stExp = Except.error (St.cleared, haltEvs) ∧
    salvar_etapa false 1 2 ("T") ("A") ("B") stExp =
      Except.error (St.cleared, haltEvs) ∧
    salvar_arquivo 1 2 ("f.pdf") stExp = Except.error (St.cleared, haltEvs) ∧
    listar_arquivos [] 1 2 stExp = Except.error (St.cleared, haltEvs) ∧
    carregar_textos_todas_etapas [] 1 stExp =
      Except.error (St.cleared, haltEvs) ∧
    hasDb haltEvs = false ∧ Ev.rerun ∈ haltEvs ∧
    St.cleared.others = [] ∧ St.cleared.queryParams = [] :=
  guarded_helpers_clear_and_rerun_without_queries stExp (by decide)
    [] 7 ("P") none 1 2 (Infos.mk none none none none none) [] false
    ("T") ("A") ("B") ("f.pdf") [] []
